import Mathlib

/-!
Shallow embedding of `src/Demo/impact_calculator.py` (class
`CarbonImpactCalculator`), the Carbon Impact Calculation & Projection
Engine of the NetZero TestOps repository.

Modelling conventions:
* Python floats are modelled as rationals (`ℚ`); the claims are about the
  formula chains, not about binary floating-point rounding.
* The constants set in `CarbonImpactCalculator.__init__` become the fields
  of a structure of the same name; `defaultCalculator` is the instance the
  constructor builds.
* A Python division `a / b` raises an uncontrolled `ZeroDivisionError`
  when `b == 0`; the source contains no `try`/`except`, so a fallible
  operation is modelled as `Except Failure α`, where a `Failure` is either
  an exception propagating uncaught out of the function
  (`Failure.uncaught`) or a caught/reported typed error kind in the sense
  of the specification (`Failure.typed`).  The source only ever produces
  `Failure.uncaught PyException.zeroDivisionError`; the `SpecErrorKind`
  constructors exist so that the specification's claimed error behaviour
  can be stated and compared against the code's.
* `datetime.now().isoformat()` is modelled by an externally supplied
  timestamp string threaded into the functions that call it.
-/

/-- The spec's typed error kinds (`InvalidInput`, `DivisionByZero`,
`EmptyInput`).  The source code never constructs any of these. -/
inductive SpecErrorKind where
  | invalidInput
  | divisionByZero
  | emptyInput
deriving DecidableEq, Repr

/-- Python exceptions the modelled code can raise. -/
inductive PyException where
  | zeroDivisionError
deriving DecidableEq, Repr

/-- How a fallible operation fails: either a typed, caught/reported error
kind (the spec's model) or an exception propagating uncontrolled (what the
Python source actually does, having no handlers). -/
inductive Failure where
  | typed (k : SpecErrorKind)
  | uncaught (e : PyException)
deriving DecidableEq, Repr

/-- Python division: `a / b` raises `ZeroDivisionError` when `b == 0`,
uncontrolled (there is no `try`/`except` anywhere in the source). -/
def pydiv (a b : ℚ) : Except Failure ℚ :=
  if b = 0 then .error (.uncaught .zeroDivisionError) else .ok (a / b)

/-- The constants set in `CarbonImpactCalculator.__init__`. -/
structure CarbonImpactCalculator where
  GRID_INTENSITY : ℚ
  CPU_BASE_WATTS : ℚ
  MEMORY_WATTS_PER_GB : ℚ
  STORAGE_WATTS_PER_GB : ℚ
  NETWORK_WATTS_PER_MB : ℚ
  CLOUD_PUE : ℚ
  ENERGY_COST_PER_KWH : ℚ
  CARBON_CREDIT_COST_PER_TON : ℚ
deriving DecidableEq, Repr

/-- The instance `__init__` builds: grid 400 g/kWh, CPU 30 W, memory
0.372 W/GB, storage 0.65 W/GB, network 0.0036 W/MB, PUE 1.12,
energy $0.12/kWh, carbon credits $25/ton. -/
def defaultCalculator : CarbonImpactCalculator where
  GRID_INTENSITY := 400
  CPU_BASE_WATTS := 30
  MEMORY_WATTS_PER_GB := 372 / 1000
  STORAGE_WATTS_PER_GB := 65 / 100
  NETWORK_WATTS_PER_MB := 36 / 10000
  CLOUD_PUE := 112 / 100
  ENERGY_COST_PER_KWH := 12 / 100
  CARBON_CREDIT_COST_PER_TON := 25

/-- The `'breakdown'` sub-dict of the result of
`calculate_base_consumption`. -/
structure EnergyBreakdown where
  cpu_wh : ℚ
  memory_wh : ℚ
  storage_wh : ℚ
  network_wh : ℚ
  pue_overhead_wh : ℚ
deriving DecidableEq, Repr

/-- The `'energy'` sub-dict of the result of `calculate_base_consumption`. -/
structure EnergyResult where
  total_wh : ℚ
  total_joules : ℚ
  total_kwh : ℚ
  breakdown : EnergyBreakdown
deriving DecidableEq, Repr

/-- The `'carbon'` sub-dict of the result of `calculate_base_consumption`. -/
structure CarbonResult where
  total_g_co2e : ℚ
  total_kg_co2e : ℚ
  grid_intensity_used : ℚ
deriving DecidableEq, Repr

/-- The `'input_parameters'` sub-dict of the result of
`calculate_base_consumption`; also used as the metrics dicts the demo
scenarios pass in (keys `duration_seconds`, `cpu_utilization`,
`memory_gb`, `storage_gb`, `network_mb`). -/
structure Metrics where
  duration_seconds : ℚ
  cpu_utilization : ℚ
  memory_gb : ℚ
  storage_gb : ℚ
  network_mb : ℚ
deriving DecidableEq, Repr

/-- The dict returned by `calculate_base_consumption`. -/
structure BaseConsumption where
  energy : EnergyResult
  carbon : CarbonResult
  input_parameters : Metrics
deriving DecidableEq, Repr

/-- `CarbonImpactCalculator.calculate_base_consumption` (lines 28-81):
pure arithmetic, no input validation, cannot fail. -/
def calculate_base_consumption (self : CarbonImpactCalculator)
    (duration_seconds cpu_utilization memory_gb storage_gb network_mb : ℚ) :
    BaseConsumption :=
  let duration_hours := duration_seconds / 3600
  let cpu_energy := self.CPU_BASE_WATTS * cpu_utilization * duration_hours
  let memory_energy := self.MEMORY_WATTS_PER_GB * memory_gb * duration_hours
  let storage_energy := self.STORAGE_WATTS_PER_GB * storage_gb * duration_hours
  let network_energy := self.NETWORK_WATTS_PER_MB * network_mb * duration_hours
  let total_energy_wh := cpu_energy + memory_energy + storage_energy + network_energy
  let total_energy_with_pue_wh := total_energy_wh * self.CLOUD_PUE
  let total_energy_joules := total_energy_with_pue_wh * 3600
  let total_energy_kwh := total_energy_with_pue_wh / 1000
  let carbon_g_co2e := total_energy_kwh * self.GRID_INTENSITY
  let carbon_kg_co2e := carbon_g_co2e / 1000
  { energy :=
      { total_wh := total_energy_with_pue_wh
        total_joules := total_energy_joules
        total_kwh := total_energy_kwh
        breakdown :=
          { cpu_wh := cpu_energy
            memory_wh := memory_energy
            storage_wh := storage_energy
            network_wh := network_energy
            pue_overhead_wh := total_energy_with_pue_wh - total_energy_wh } }
    carbon :=
      { total_g_co2e := carbon_g_co2e
        total_kg_co2e := carbon_kg_co2e
        grid_intensity_used := self.GRID_INTENSITY }
    input_parameters :=
      { duration_seconds := duration_seconds
        cpu_utilization := cpu_utilization
        memory_gb := memory_gb
        storage_gb := storage_gb
        network_mb := network_mb } }

/-- Apply `calculate_base_consumption` to a metrics dict, as the
`**metrics` call in `calculate_framework_comparison` does. -/
def baseOf (self : CarbonImpactCalculator) (m : Metrics) : BaseConsumption :=
  calculate_base_consumption self m.duration_seconds m.cpu_utilization
    m.memory_gb m.storage_gb m.network_mb

/-- The `'comparison_summary'` sub-dict of the result of
`calculate_framework_comparison`. -/
structure ComparisonSummary where
  energy_reduction_percent : ℚ
  carbon_reduction_percent : ℚ
  performance_improvement_percent : ℚ
  energy_saved_joules : ℚ
  carbon_saved_g_co2e : ℚ
deriving DecidableEq, Repr

/-- The `'efficiency_analysis'` sub-dict of the result of
`calculate_framework_comparison`. -/
structure EfficiencyAnalysis where
  cpu_efficiency_improvement : ℚ
  memory_efficiency_improvement : ℚ
deriving DecidableEq, Repr

/-- The dict returned by `calculate_framework_comparison`. -/
structure Comparison where
  timestamp : String
  comparison_summary : ComparisonSummary
  sustainable_framework : BaseConsumption
  wasteful_framework : BaseConsumption
  efficiency_analysis : EfficiencyAnalysis
deriving DecidableEq, Repr

/-- `CarbonImpactCalculator.calculate_framework_comparison` (lines
83-129).  The five divisions happen in source order (energy reduction,
carbon reduction, performance improvement, cpu efficiency, memory
efficiency); each raises an uncontrolled `ZeroDivisionError` when its
denominator is zero.  `now` stands for `datetime.now().isoformat()`. -/
def calculate_framework_comparison (self : CarbonImpactCalculator)
    (sustainable_metrics wasteful_metrics : Metrics) (now : String) :
    Except Failure Comparison := do
  let sustainable_result := baseOf self sustainable_metrics
  let wasteful_result := baseOf self wasteful_metrics
  let energy_frac ← pydiv
    (wasteful_result.energy.total_joules - sustainable_result.energy.total_joules)
    wasteful_result.energy.total_joules
  let energy_reduction := energy_frac * 100
  let carbon_frac ← pydiv
    (wasteful_result.carbon.total_g_co2e - sustainable_result.carbon.total_g_co2e)
    wasteful_result.carbon.total_g_co2e
  let carbon_reduction := carbon_frac * 100
  let performance_frac ← pydiv
    (wasteful_metrics.duration_seconds - sustainable_metrics.duration_seconds)
    wasteful_metrics.duration_seconds
  let performance_improvement := performance_frac * 100
  let energy_saved_joules :=
    wasteful_result.energy.total_joules - sustainable_result.energy.total_joules
  let carbon_saved_g_co2e :=
    wasteful_result.carbon.total_g_co2e - sustainable_result.carbon.total_g_co2e
  let cpu_frac ← pydiv
    (wasteful_metrics.cpu_utilization - sustainable_metrics.cpu_utilization)
    wasteful_metrics.cpu_utilization
  let memory_frac ← pydiv
    (wasteful_metrics.memory_gb - sustainable_metrics.memory_gb)
    wasteful_metrics.memory_gb
  pure
    { timestamp := now
      comparison_summary :=
        { energy_reduction_percent := energy_reduction
          carbon_reduction_percent := carbon_reduction
          performance_improvement_percent := performance_improvement
          energy_saved_joules := energy_saved_joules
          carbon_saved_g_co2e := carbon_saved_g_co2e }
      sustainable_framework := sustainable_result
      wasteful_framework := wasteful_result
      efficiency_analysis :=
        { cpu_efficiency_improvement := cpu_frac * 100
          memory_efficiency_improvement := memory_frac * 100 } }

/-- The `'comparison_summary'` fields `calculate_annual_projections`
reads from its `comparison_result` argument (the only two keys it uses;
`generate_carbon_report` builds a mock dict holding exactly these). -/
structure SavedSummary where
  energy_saved_joules : ℚ
  carbon_saved_g_co2e : ℚ
deriving DecidableEq, Repr

/-- The `comparison_result` argument of `calculate_annual_projections`. -/
structure ProjectionInput where
  comparison_summary : SavedSummary
deriving DecidableEq, Repr

/-- The `'projection_parameters'` sub-dict. -/
structure ProjectionParameters where
  daily_tests : ℤ
  projection_days : ℤ
  energy_cost_per_kwh : ℚ
  carbon_credit_cost_per_ton : ℚ
deriving DecidableEq, Repr

/-- The `'annual_environmental_impact'` sub-dict. -/
structure AnnualEnvironmentalImpact where
  energy_saved_kwh : ℚ
  carbon_saved_kg : ℚ
  carbon_saved_tons : ℚ
  equivalent_cars_removed : ℚ
  equivalent_trees_planted : ℚ
deriving DecidableEq, Repr

/-- The `'annual_cost_savings'` sub-dict. -/
structure AnnualCostSavings where
  energy_cost_savings : ℚ
  carbon_credit_savings : ℚ
  total_savings : ℚ
deriving DecidableEq, Repr

/-- The `'daily_impact'` sub-dict. -/
structure DailyImpact where
  energy_saved_kwh : ℚ
  carbon_saved_kg : ℚ
deriving DecidableEq, Repr

/-- The dict returned by `calculate_annual_projections`. -/
structure Projections where
  projection_parameters : ProjectionParameters
  annual_environmental_impact : AnnualEnvironmentalImpact
  annual_cost_savings : AnnualCostSavings
  daily_impact : DailyImpact
deriving DecidableEq, Repr

/-- `CarbonImpactCalculator.calculate_annual_projections` (lines
131-173): pure arithmetic over the two saved-quantity fields, the daily
test count and the economic constants; the only divisions are by the
nonzero literals 3600000, 1000, 4.6 and 22, so it cannot fail. -/
def calculate_annual_projections (self : CarbonImpactCalculator)
    (daily_tests : ℤ) (comparison_result : ProjectionInput) : Projections :=
  let daily_energy_saved_kwh :=
    comparison_result.comparison_summary.energy_saved_joules * (daily_tests : ℚ) / 3600000
  let daily_carbon_saved_kg :=
    comparison_result.comparison_summary.carbon_saved_g_co2e * (daily_tests : ℚ) / 1000
  let annual_energy_saved_kwh := daily_energy_saved_kwh * 365
  let annual_carbon_saved_kg := daily_carbon_saved_kg * 365
  let annual_carbon_saved_tons := annual_carbon_saved_kg / 1000
  let annual_energy_cost_savings := annual_energy_saved_kwh * self.ENERGY_COST_PER_KWH
  let annual_carbon_credit_savings := annual_carbon_saved_tons * self.CARBON_CREDIT_COST_PER_TON
  let total_annual_savings := annual_energy_cost_savings + annual_carbon_credit_savings
  { projection_parameters :=
      { daily_tests := daily_tests
        projection_days := 365
        energy_cost_per_kwh := self.ENERGY_COST_PER_KWH
        carbon_credit_cost_per_ton := self.CARBON_CREDIT_COST_PER_TON }
    annual_environmental_impact :=
      { energy_saved_kwh := annual_energy_saved_kwh
        carbon_saved_kg := annual_carbon_saved_kg
        carbon_saved_tons := annual_carbon_saved_tons
        equivalent_cars_removed := annual_carbon_saved_tons / (46 / 10)
        equivalent_trees_planted := annual_carbon_saved_kg / 22 }
    annual_cost_savings :=
      { energy_cost_savings := annual_energy_cost_savings
        carbon_credit_savings := annual_carbon_credit_savings
        total_savings := total_annual_savings }
    daily_impact :=
      { energy_saved_kwh := daily_energy_saved_kwh
        carbon_saved_kg := daily_carbon_saved_kg } }

/-- A test scenario as the demo builds it: a name and two metrics dicts. -/
structure Scenario where
  name : String
  sustainable_metrics : Metrics
  wasteful_metrics : Metrics
deriving DecidableEq, Repr

/-- A comparison with the `'scenario_name'` key
`generate_carbon_report` adds. -/
structure NamedComparison where
  scenario_name : String
  comparison : Comparison
deriving DecidableEq, Repr

/-- The `for scenario in test_scenarios:` loop of `generate_carbon_report`
(lines 180-186): run the comparison per scenario, tag it with the scenario
name, append; the first uncontrolled exception aborts the whole loop. -/
def runComparisons (self : CarbonImpactCalculator) (now : String) :
    List Scenario → Except Failure (List NamedComparison)
  | [] => .ok []
  | scenario :: rest => do
    let comparison ← calculate_framework_comparison self
      scenario.sustainable_metrics scenario.wasteful_metrics now
    let tail ← runComparisons self now rest
    pure ({ scenario_name := scenario.name, comparison := comparison } :: tail)

/-- The `'report_metadata'` sub-dict. -/
structure ReportMetadata where
  generated_timestamp : String
  scenarios_analyzed : ℕ
  calculator_version : String
deriving DecidableEq, Repr

/-- The `'executive_summary'` sub-dict. -/
structure ExecutiveSummary where
  average_carbon_reduction_percent : ℚ
  average_energy_reduction_percent : ℚ
  total_energy_saved_joules : ℚ
  total_carbon_saved_g_co2e : ℚ
deriving DecidableEq, Repr

/-- The `'methodology'` sub-dict. -/
structure Methodology where
  grid_intensity_g_co2_kwh : ℚ
  cpu_base_watts : ℚ
  memory_watts_per_gb : ℚ
  cloud_pue_factor : ℚ
  standards_compliance : List String
deriving DecidableEq, Repr

/-- The dict returned by `generate_carbon_report`. -/
structure Report where
  report_metadata : ReportMetadata
  executive_summary : ExecutiveSummary
  detailed_scenarios : List NamedComparison
  annual_projections : Projections
  methodology : Methodology
deriving DecidableEq, Repr

/-- `CarbonImpactCalculator.generate_carbon_report` (lines 175-232).
The averages divide by `len(total_comparisons)` and the mock comparison
divides by `len(test_scenarios)`; on an empty scenario list the first of
these raises an uncontrolled `ZeroDivisionError`.  `now` stands for
`datetime.now().isoformat()`. -/
def generate_carbon_report (self : CarbonImpactCalculator)
    (test_scenarios : List Scenario) (now : String) : Except Failure Report := do
  let total_comparisons ← runComparisons self now test_scenarios
  let total_energy_saved :=
    (total_comparisons.map (fun c => c.comparison.comparison_summary.energy_saved_joules)).sum
  let total_carbon_saved :=
    (total_comparisons.map (fun c => c.comparison.comparison_summary.carbon_saved_g_co2e)).sum
  let avg_carbon_reduction ← pydiv
    ((total_comparisons.map (fun c => c.comparison.comparison_summary.carbon_reduction_percent)).sum)
    (total_comparisons.length : ℚ)
  let avg_energy_reduction ← pydiv
    ((total_comparisons.map (fun c => c.comparison.comparison_summary.energy_reduction_percent)).sum)
    (total_comparisons.length : ℚ)
  let mock_energy ← pydiv total_energy_saved (test_scenarios.length : ℚ)
  let mock_carbon ← pydiv total_carbon_saved (test_scenarios.length : ℚ)
  let mock_comparison : ProjectionInput :=
    { comparison_summary :=
        { energy_saved_joules := mock_energy
          carbon_saved_g_co2e := mock_carbon } }
  let annual_projections := calculate_annual_projections self 100 mock_comparison
  pure
    { report_metadata :=
        { generated_timestamp := now
          scenarios_analyzed := test_scenarios.length
          calculator_version := "1.0.0" }
      executive_summary :=
        { average_carbon_reduction_percent := avg_carbon_reduction
          average_energy_reduction_percent := avg_energy_reduction
          total_energy_saved_joules := total_energy_saved
          total_carbon_saved_g_co2e := total_carbon_saved }
      detailed_scenarios := total_comparisons
      annual_projections := annual_projections
      methodology :=
        { grid_intensity_g_co2_kwh := self.GRID_INTENSITY
          cpu_base_watts := self.CPU_BASE_WATTS
          memory_watts_per_gb := self.MEMORY_WATTS_PER_GB
          cloud_pue_factor := self.CLOUD_PUE
          standards_compliance :=
            ["Software Carbon Intensity (SCI) Specification",
             "GHG Protocol Scope 2 Guidance",
             "Green Software Foundation Standards"] } }

/-! ### Helper lemmas -/

theorem pydiv_of_ne (a b : ℚ) (hb : b ≠ 0) : pydiv a b = .ok (a / b) := by
  simp [pydiv, hb]

theorem pydiv_zero (a : ℚ) : pydiv a 0 = .error (.uncaught .zeroDivisionError) := by
  simp [pydiv]

theorem except_bind_ok {α β : Type} (a : α) (f : α → Except Failure β) :
    (Except.ok a >>= f) = f a := rfl

theorem except_bind_err {α β : Type} (e : Failure) (f : α → Except Failure β) :
    ((Except.error e : Except Failure α) >>= f) = Except.error e := rfl

/-! ### Theorems for the claims -/

/-- C1: for every utilization sample and coefficient set, the Energy
Estimator (`calculate_base_consumption`) returns
`cpu_wh = cpu_base_watts * cpu_utilization * duration_seconds/3600` (and
analogously memory, storage and network with their per-unit
coefficients), a total `total_wh` equal to the component sum scaled by the
overhead factor, `total_joules = total_wh * 3600` and
`total_kwh = total_wh / 1000`. -/
theorem base_consumption_formulas (self : CarbonImpactCalculator)
    (d u m s n : ℚ) :
    let r := calculate_base_consumption self d u m s n
    r.energy.breakdown.cpu_wh = self.CPU_BASE_WATTS * u * d / 3600 ∧
    r.energy.breakdown.memory_wh = self.MEMORY_WATTS_PER_GB * m * d / 3600 ∧
    r.energy.breakdown.storage_wh = self.STORAGE_WATTS_PER_GB * s * d / 3600 ∧
    r.energy.breakdown.network_wh = self.NETWORK_WATTS_PER_MB * n * d / 3600 ∧
    r.energy.total_wh =
      (r.energy.breakdown.cpu_wh + r.energy.breakdown.memory_wh +
        r.energy.breakdown.storage_wh + r.energy.breakdown.network_wh) *
        self.CLOUD_PUE ∧
    r.energy.total_joules = r.energy.total_wh * 3600 ∧
    r.energy.total_kwh = r.energy.total_wh / 1000 := by
  refine ⟨?_, ?_, ?_, ?_, ?_, ?_, ?_⟩ <;>
    simp only [calculate_base_consumption] <;> ring

/-- C2: for every estimated result, `carbon_g = total_kwh *
grid_intensity_g_per_kwh`, `carbon_kg = carbon_g / 1000`, and the
grid-intensity value used is recorded alongside them
(`grid_intensity_used`). -/
theorem carbon_formulas (self : CarbonImpactCalculator) (d u m s n : ℚ) :
    let r := calculate_base_consumption self d u m s n
    r.carbon.total_g_co2e = r.energy.total_kwh * self.GRID_INTENSITY ∧
    r.carbon.total_kg_co2e = r.carbon.total_g_co2e / 1000 ∧
    r.carbon.grid_intensity_used = self.GRID_INTENSITY := by
  refine ⟨?_, ?_, ?_⟩ <;> simp only [calculate_base_consumption]

/-- C7: for every comparison result and daily test count, the Projection
Engine (`calculate_annual_projections`) returns
`daily_energy_saved_kwh = energy_saved_joules * daily_tests / 3600000`,
annual figures equal to the daily figures times 365,
`annual_carbon_saved_tons = annual_carbon_saved_kg / 1000`, cost savings
obtained by multiplying by the energy price and the carbon-credit price,
and the exact equivalences `cars_removed = annual_carbon_saved_tons / 4.6`
and `trees_planted = annual_carbon_saved_kg / 22`. -/
theorem annual_projection_formulas (self : CarbonImpactCalculator)
    (daily_tests : ℤ) (comparison_result : ProjectionInput) :
    let p := calculate_annual_projections self daily_tests comparison_result
    p.daily_impact.energy_saved_kwh =
      comparison_result.comparison_summary.energy_saved_joules *
        (daily_tests : ℚ) / 3600000 ∧
    p.daily_impact.carbon_saved_kg =
      comparison_result.comparison_summary.carbon_saved_g_co2e *
        (daily_tests : ℚ) / 1000 ∧
    p.annual_environmental_impact.energy_saved_kwh =
      p.daily_impact.energy_saved_kwh * 365 ∧
    p.annual_environmental_impact.carbon_saved_kg =
      p.daily_impact.carbon_saved_kg * 365 ∧
    p.annual_environmental_impact.carbon_saved_tons =
      p.annual_environmental_impact.carbon_saved_kg / 1000 ∧
    p.annual_cost_savings.energy_cost_savings =
      p.annual_environmental_impact.energy_saved_kwh * self.ENERGY_COST_PER_KWH ∧
    p.annual_cost_savings.carbon_credit_savings =
      p.annual_environmental_impact.carbon_saved_tons *
        self.CARBON_CREDIT_COST_PER_TON ∧
    p.annual_cost_savings.total_savings =
      p.annual_cost_savings.energy_cost_savings +
        p.annual_cost_savings.carbon_credit_savings ∧
    p.annual_environmental_impact.equivalent_cars_removed =
      p.annual_environmental_impact.carbon_saved_tons / (46 / 10) ∧
    p.annual_environmental_impact.equivalent_trees_planted =
      p.annual_environmental_impact.carbon_saved_kg / 22 := by
  refine ⟨?_, ?_, ?_, ?_, ?_, ?_, ?_, ?_, ?_, ?_⟩ <;>
    simp only [calculate_annual_projections]

/-- Closed form of `total_wh` under the default coefficients. -/
theorem total_wh_default (d u m s n : ℚ) :
    (calculate_base_consumption defaultCalculator d u m s n).energy.total_wh =
      (30 * u + 372 / 1000 * m + 65 / 100 * s + 36 / 10000 * n) * d *
        (112 / 100) / 3600 := by
  simp only [calculate_base_consumption, defaultCalculator]
  ring

/-- Closed form of `total_joules` under the default coefficients. -/
theorem total_joules_default (w : Metrics) :
    (baseOf defaultCalculator w).energy.total_joules =
      (30 * w.cpu_utilization + 372 / 1000 * w.memory_gb +
        65 / 100 * w.storage_gb + 36 / 10000 * w.network_mb) *
        w.duration_seconds * (112 / 100) := by
  simp only [baseOf, calculate_base_consumption, defaultCalculator]
  ring

/-- Under the default coefficients the carbon mass is a fixed positive
multiple of the joule figure. -/
theorem carbon_eq_joules_div (w : Metrics) :
    (baseOf defaultCalculator w).carbon.total_g_co2e =
      (baseOf defaultCalculator w).energy.total_joules / 9000 := by
  simp only [baseOf, calculate_base_consumption, defaultCalculator]
  ring

/-- C9: for all valid utilization samples (non-negative quantities,
cpu_utilization in [0,1]) and the default coefficients, the Estimator's
`total_wh` is monotonically non-decreasing in each of duration,
cpu_utilization, memory_gb, storage_gb and network_mb, the other inputs
held fixed. -/
theorem estimator_total_wh_monotone (d u m s n dd uu mm ss nn : ℚ)
    (hd : 0 ≤ d) (hu0 : 0 ≤ u) (hu1 : u ≤ 1) (hm : 0 ≤ m) (hs : 0 ≤ s)
    (hn : 0 ≤ n) :
    (d ≤ dd →
      (calculate_base_consumption defaultCalculator d u m s n).energy.total_wh ≤
      (calculate_base_consumption defaultCalculator dd u m s n).energy.total_wh) ∧
    (u ≤ uu → uu ≤ 1 →
      (calculate_base_consumption defaultCalculator d u m s n).energy.total_wh ≤
      (calculate_base_consumption defaultCalculator d uu m s n).energy.total_wh) ∧
    (m ≤ mm →
      (calculate_base_consumption defaultCalculator d u m s n).energy.total_wh ≤
      (calculate_base_consumption defaultCalculator d u mm s n).energy.total_wh) ∧
    (s ≤ ss →
      (calculate_base_consumption defaultCalculator d u m s n).energy.total_wh ≤
      (calculate_base_consumption defaultCalculator d u m ss n).energy.total_wh) ∧
    (n ≤ nn →
      (calculate_base_consumption defaultCalculator d u m s n).energy.total_wh ≤
      (calculate_base_consumption defaultCalculator d u m s nn).energy.total_wh) := by
  have hA : 0 ≤ 30 * u + 372 / 1000 * m + 65 / 100 * s + 36 / 10000 * n := by
    linarith
  refine ⟨?_, ?_, ?_, ?_, ?_⟩
  · intro h
    rw [total_wh_default, total_wh_default]
    have := mul_le_mul_of_nonneg_left h hA
    linarith
  · intro h _
    rw [total_wh_default, total_wh_default]
    have hB : 30 * u + 372 / 1000 * m + 65 / 100 * s + 36 / 10000 * n ≤
        30 * uu + 372 / 1000 * m + 65 / 100 * s + 36 / 10000 * n := by linarith
    have := mul_le_mul_of_nonneg_right hB hd
    linarith
  · intro h
    rw [total_wh_default, total_wh_default]
    have hB : 30 * u + 372 / 1000 * m + 65 / 100 * s + 36 / 10000 * n ≤
        30 * u + 372 / 1000 * mm + 65 / 100 * s + 36 / 10000 * n := by linarith
    have := mul_le_mul_of_nonneg_right hB hd
    linarith
  · intro h
    rw [total_wh_default, total_wh_default]
    have hB : 30 * u + 372 / 1000 * m + 65 / 100 * s + 36 / 10000 * n ≤
        30 * u + 372 / 1000 * m + 65 / 100 * ss + 36 / 10000 * n := by linarith
    have := mul_le_mul_of_nonneg_right hB hd
    linarith
  · intro h
    rw [total_wh_default, total_wh_default]
    have hB : 30 * u + 372 / 1000 * m + 65 / 100 * s + 36 / 10000 * n ≤
        30 * u + 372 / 1000 * m + 65 / 100 * s + 36 / 10000 * nn := by linarith
    have := mul_le_mul_of_nonneg_right hB hd
    linarith

/-- Witness for C9 at a concrete valid sample (duration conjunct). -/
theorem estimator_total_wh_monotone_witness :
    ((0 : ℚ) ≤ 1 ∧ (0 : ℚ) ≤ 1 / 2 ∧ (1 / 2 : ℚ) ≤ 1 ∧ (0 : ℚ) ≤ 1 ∧
      (1 : ℚ) ≤ 2) ∧
    ((1 : ℚ) ≤ 2 →
      (calculate_base_consumption defaultCalculator 1 (1 / 2) 1 1 1).energy.total_wh ≤
      (calculate_base_consumption defaultCalculator 2 (1 / 2) 1 1 1).energy.total_wh) :=
  ⟨⟨by norm_num, by norm_num, by norm_num, by norm_num, by norm_num⟩,
    (estimator_total_wh_monotone 1 (1 / 2) 1 1 1 2 1 2 2 2 (by norm_num)
      (by norm_num) (by norm_num) (by norm_num) (by norm_num) (by norm_num)).1⟩

/-- C4 counterexample: on the invalid input duration = -3600 s,
cpu_utilization = 1, the Estimator does not fail with `InvalidInput`: it
returns an ordinary result, here with the (physically meaningless)
negative energy total -33.6 Wh.  The source contains no validation of any
argument. -/
theorem estimator_no_validation_counterexample :
    (calculate_base_consumption defaultCalculator (-3600) 1 0 0 0).energy.total_wh
      = -168 / 5 := by
  norm_num [calculate_base_consumption, defaultCalculator]

/-- C4 amended: the Estimator performs no input validation; on an invalid
input (negative duration, positive cpu_utilization within [0,1],
non-negative resource quantities) it still returns a result computed by
the unchanged formulas — with a strictly negative energy total. -/
theorem estimator_no_validation (d u m s n : ℚ) (hd : d < 0) (hu0 : 0 < u)
    (hu1 : u ≤ 1) (hm : 0 ≤ m) (hs : 0 ≤ s) (hn : 0 ≤ n) :
    (calculate_base_consumption defaultCalculator d u m s n).energy.total_wh < 0 := by
  rw [total_wh_default]
  have hA : 0 < 30 * u + 372 / 1000 * m + 65 / 100 * s + 36 / 10000 * n := by
    linarith
  have := mul_neg_of_pos_of_neg hA hd
  linarith

/-- Witness for the amended C4 at duration = -3600 s. -/
theorem estimator_no_validation_witness :
    ((-3600 : ℚ) < 0 ∧ (0 : ℚ) < 1 ∧ (1 : ℚ) ≤ 1 ∧ (0 : ℚ) ≤ 0) ∧
    (calculate_base_consumption defaultCalculator (-3600) 1 0 0 0).energy.total_wh < 0 :=
  ⟨⟨by norm_num, by norm_num, by norm_num, by norm_num⟩,
    estimator_no_validation (-3600) 1 0 0 0 (by norm_num) (by norm_num)
      (by norm_num) (by norm_num) (by norm_num) (by norm_num)⟩

/-- C3 counterexample: feeding a baseline (wasteful) sample with
total_joules = 0 to `calculate_framework_comparison` does not produce the
spec's caught/reported typed `DivisionByZero` failure: the
`ZeroDivisionError` raised by the unguarded division propagates uncaught
(the source has no `try`/`except` and defines no typed error kinds). -/
theorem comparison_uncaught_counterexample :
    calculate_framework_comparison defaultCalculator
        ⟨0, 0, 0, 0, 0⟩ ⟨0, 0, 0, 0, 0⟩ "t" =
      .error (.uncaught .zeroDivisionError) ∧
    Failure.uncaught .zeroDivisionError ≠ Failure.typed .divisionByZero := by
  constructor
  · simp [calculate_framework_comparison, baseOf, calculate_base_consumption,
      defaultCalculator, pydiv, except_bind_err]
  · decide

/-- C3 amended: whenever the baseline (wasteful) sample's total_joules,
carbon_g or duration is exactly zero, the Comparative Analyzer fails —
but by an uncontrolled `ZeroDivisionError` exception propagating out of
the unguarded division, not by a distinct caught/reported
`DivisionByZero` error kind. -/
theorem comparison_zero_denominator_uncaught
    (sustainable_metrics wasteful_metrics : Metrics) (now : String)
    (h : (baseOf defaultCalculator wasteful_metrics).energy.total_joules = 0 ∨
      (baseOf defaultCalculator wasteful_metrics).carbon.total_g_co2e = 0 ∨
      wasteful_metrics.duration_seconds = 0) :
    calculate_framework_comparison defaultCalculator sustainable_metrics
      wasteful_metrics now = .error (.uncaught .zeroDivisionError) := by
  have hJ : (baseOf defaultCalculator wasteful_metrics).energy.total_joules = 0 := by
    rcases h with h | h | h
    · exact h
    · have hc := carbon_eq_joules_div wasteful_metrics
      rw [h] at hc
      field_simp at hc
      linarith [hc]
    · rw [total_joules_default, h]
      ring
  simp only [calculate_framework_comparison, hJ, pydiv_zero, except_bind_err]

/-- Witness for the amended C3 at a zero-duration baseline. -/
theorem comparison_zero_denominator_uncaught_witness :
    (Metrics.duration_seconds ⟨0, 1, 1, 1, 1⟩ = 0) ∧
    calculate_framework_comparison defaultCalculator ⟨1, 1, 1, 1, 1⟩
      ⟨0, 1, 1, 1, 1⟩ "t" = .error (.uncaught .zeroDivisionError) :=
  ⟨rfl,
    comparison_zero_denominator_uncaught ⟨1, 1, 1, 1, 1⟩ ⟨0, 1, 1, 1, 1⟩ "t"
      (Or.inr (Or.inr rfl))⟩

/-- C10: the Comparative Analyzer also divides by the baseline (wasteful)
sample's cpu_utilization and memory_gb in its efficiency analysis: even
when the baseline's total_joules, carbon_g and duration are all nonzero,
a zero cpu_utilization or memory_gb still makes the comparison fail with
a division-by-zero error. -/
theorem comparison_efficiency_division_by_zero
    (sustainable_metrics wasteful_metrics : Metrics) (now : String)
    (hJ : (baseOf defaultCalculator wasteful_metrics).energy.total_joules ≠ 0)
    (hC : (baseOf defaultCalculator wasteful_metrics).carbon.total_g_co2e ≠ 0)
    (hD : wasteful_metrics.duration_seconds ≠ 0)
    (hz : wasteful_metrics.cpu_utilization = 0 ∨ wasteful_metrics.memory_gb = 0) :
    calculate_framework_comparison defaultCalculator sustainable_metrics
      wasteful_metrics now = .error (.uncaught .zeroDivisionError) := by
  by_cases hcpu : wasteful_metrics.cpu_utilization = 0
  · simp only [calculate_framework_comparison, pydiv_of_ne _ _ hJ,
      pydiv_of_ne _ _ hC, pydiv_of_ne _ _ hD, except_bind_ok, hcpu,
      pydiv_zero, except_bind_err]
  · have hmem : wasteful_metrics.memory_gb = 0 := by tauto
    simp only [calculate_framework_comparison, pydiv_of_ne _ _ hJ,
      pydiv_of_ne _ _ hC, pydiv_of_ne _ _ hD, pydiv_of_ne _ _ hcpu,
      except_bind_ok, hmem, pydiv_zero, except_bind_err]

/-- Witness for C10: baseline with 1 s duration, nonzero memory but zero
cpu_utilization. -/
theorem comparison_efficiency_division_by_zero_witness :
    ((baseOf defaultCalculator ⟨1, 0, 1, 0, 0⟩).energy.total_joules ≠ 0 ∧
      (baseOf defaultCalculator ⟨1, 0, 1, 0, 0⟩).carbon.total_g_co2e ≠ 0 ∧
      Metrics.duration_seconds ⟨1, 0, 1, 0, 0⟩ ≠ 0 ∧
      Metrics.cpu_utilization ⟨1, 0, 1, 0, 0⟩ = 0) ∧
    calculate_framework_comparison defaultCalculator ⟨0, 0, 0, 0, 0⟩
      ⟨1, 0, 1, 0, 0⟩ "t" = .error (.uncaught .zeroDivisionError) :=
  ⟨⟨by norm_num [baseOf, calculate_base_consumption, defaultCalculator],
    by norm_num [baseOf, calculate_base_consumption, defaultCalculator],
    by norm_num, rfl⟩,
    comparison_efficiency_division_by_zero ⟨0, 0, 0, 0, 0⟩ ⟨1, 0, 1, 0, 0⟩ "t"
      (by norm_num [baseOf, calculate_base_consumption, defaultCalculator])
      (by norm_num [baseOf, calculate_base_consumption, defaultCalculator])
      (by norm_num) (Or.inl rfl)⟩

/-- C5 counterexample: `generate_carbon_report` on the empty scenario
list fails with an uncontrolled `ZeroDivisionError` (dividing the summed
reduction percentages by `len([]) = 0`), which is not the spec's
`EmptyInput` error kind. -/
theorem empty_report_counterexample :
    generate_carbon_report defaultCalculator [] "t" =
      .error (.uncaught .zeroDivisionError) ∧
    Failure.uncaught .zeroDivisionError ≠ Failure.typed .emptyInput := by
  constructor
  · simp [generate_carbon_report, runComparisons, pydiv, except_bind_ok,
      except_bind_err]
  · decide

/-- C5 amended: on an empty scenario collection the Report Aggregator
fails, but by an uncontrolled `ZeroDivisionError` raised when the average
reduction divides by the zero scenario count; the code defines no
`EmptyInput` error kind. -/
theorem empty_report_zero_division (self : CarbonImpactCalculator) (now : String) :
    generate_carbon_report self [] now = .error (.uncaught .zeroDivisionError) := by
  simp [generate_carbon_report, runComparisons, pydiv, except_bind_ok,
    except_bind_err]

/-! ### Timestamp plumbing for the determinism claim -/

/-- Replace a comparison's wall-clock timestamp. -/
def retimeComparison (t : String) (c : Comparison) : Comparison :=
  { c with timestamp := t }

/-- Replace a named comparison's wall-clock timestamp. -/
def retimeNamed (t : String) (nc : NamedComparison) : NamedComparison :=
  { nc with comparison := retimeComparison t nc.comparison }

/-- Erase a comparison's wall-clock timestamp. -/
def stripComparisonTimestamp (c : Comparison) : Comparison :=
  { c with timestamp := "" }

/-- Erase a named comparison's wall-clock timestamp. -/
def stripNamedTimestamp (nc : NamedComparison) : NamedComparison :=
  { nc with comparison := stripComparisonTimestamp nc.comparison }

/-- Erase every wall-clock timestamp a report holds (its own generation
timestamp and the per-scenario comparison timestamps). -/
def stripReportTimestamps (r : Report) : Report :=
  { r with
    report_metadata := { r.report_metadata with generated_timestamp := "" }
    detailed_scenarios := r.detailed_scenarios.map stripNamedTimestamp }

theorem except_map_bind {α β γ : Type} (e : Except Failure α)
    (f : α → Except Failure β) (g : β → γ) :
    Except.map g (e >>= f) = e >>= fun a => Except.map g (f a) := by
  cases e <;> rfl

theorem except_bind_map {α β γ : Type} (e : Except Failure α) (f : α → β)
    (g : β → Except Failure γ) :
    (Except.map f e >>= g) = e >>= fun a => g (f a) := by
  cases e <;> rfl

theorem except_map_map {α β γ : Type} (e : Except Failure α) (f : α → β)
    (g : β → γ) :
    Except.map g (Except.map f e) = Except.map (fun a => g (f a)) e := by
  cases e <;> rfl

/-- The clock input only lands in the comparison's `timestamp` field. -/
theorem comparison_retime (self : CarbonImpactCalculator)
    (s w : Metrics) (t : String) :
    calculate_framework_comparison self s w t =
      Except.map (retimeComparison t) (calculate_framework_comparison self s w "") := by
  simp only [calculate_framework_comparison, except_map_bind]
  rfl

/-- The clock input only lands in the per-scenario timestamps of the
comparison loop's output. -/
theorem runComparisons_retime (self : CarbonImpactCalculator) (t : String)
    (l : List Scenario) :
    runComparisons self t l =
      Except.map (List.map (retimeNamed t)) (runComparisons self "" l) := by
  induction l with
  | nil => rfl
  | cons sc rest ih =>
    simp only [runComparisons]
    rw [comparison_retime, ih]
    simp only [except_bind_map, except_map_bind]
    rfl

/-- Replace every wall-clock timestamp a report holds. -/
def retimeReport (t : String) (r : Report) : Report :=
  { r with
    report_metadata := { r.report_metadata with generated_timestamp := t }
    detailed_scenarios := r.detailed_scenarios.map (retimeNamed t) }

/-- The clock input only lands in the report's timestamp fields. -/
theorem report_retime (self : CarbonImpactCalculator) (l : List Scenario)
    (t : String) :
    generate_carbon_report self l t =
      Except.map (retimeReport t) (generate_carbon_report self l "") := by
  simp only [generate_carbon_report]
  rw [runComparisons_retime]
  simp only [except_bind_map, except_map_bind]
  congr 1
  funext ncs
  simp only [List.map_map, List.length_map]
  rfl

/-- A fixed alternative coefficient set (all coefficients 1), used to
instantiate theorems at concrete inputs with small numbers. -/
def onesCalculator : CarbonImpactCalculator :=
  ⟨1, 1, 1, 1, 1, 1, 1, 1⟩

/-- C6 counterexample: two calls of the Comparative Analyzer with
identical inputs do not yield bit-identical outputs, because the result
embeds `datetime.now()`: at different clock readings the outputs differ
(in the `timestamp` field). -/
theorem comparison_timestamp_counterexample :
    calculate_framework_comparison onesCalculator ⟨0, 0, 0, 0, 0⟩
        ⟨3600, 1, 1, 1, 1⟩ "t1" ≠
      calculate_framework_comparison onesCalculator ⟨0, 0, 0, 0, 0⟩
        ⟨3600, 1, 1, 1, 1⟩ "t2" := by
  norm_num [calculate_framework_comparison, baseOf, calculate_base_consumption,
    onesCalculator, pydiv, except_bind_ok]
  decide

/-- C6 amended: the Projection Engine takes no clock input at all, and
the Comparative Analyzer and Report Aggregator are deterministic in all
computed figures: two calls with identical inputs yield outputs that are
bit-identical after erasing the wall-clock `timestamp` /
`generated_timestamp` metadata fields the code fills from
`datetime.now()`. -/
theorem engine_deterministic_up_to_timestamps (self : CarbonImpactCalculator)
    (s w : Metrics) (l : List Scenario) (t1 t2 : String) :
    Except.map stripComparisonTimestamp (calculate_framework_comparison self s w t1) =
      Except.map stripComparisonTimestamp (calculate_framework_comparison self s w t2) ∧
    Except.map stripReportTimestamps (generate_carbon_report self l t1) =
      Except.map stripReportTimestamps (generate_carbon_report self l t2) := by
  constructor
  · rw [comparison_retime self s w t1, comparison_retime self s w t2,
      except_map_map, except_map_map]
    rfl
  · rw [report_retime self l t1, report_retime self l t2,
      except_map_map, except_map_map]
    have h : ∀ t : String,
        (fun r => stripReportTimestamps (retimeReport t r)) = stripReportTimestamps := by
      intro t
      funext r
      simp only [stripReportTimestamps, retimeReport, List.map_map]
      rfl
    rw [h t1, h t2]

/-- The comparison loop yields one named comparison per scenario. -/
theorem runComparisons_length (self : CarbonImpactCalculator) (t : String) :
    ∀ (l : List Scenario) (ncs : List NamedComparison),
      runComparisons self t l = .ok ncs → ncs.length = l.length := by
  intro l
  induction l with
  | nil =>
    intro ncs h
    simp only [runComparisons] at h
    cases h
    rfl
  | cons sc rest ih =>
    intro ncs h
    simp only [runComparisons] at h
    rcases hcm : calculate_framework_comparison self sc.sustainable_metrics
        sc.wasteful_metrics t with e | c
    · rw [hcm, except_bind_err] at h
      cases h
    · rw [hcm, except_bind_ok] at h
      rcases hrest : runComparisons self t rest with e | tail
      · rw [hrest, except_bind_err] at h
        cases h
      · rw [hrest, except_bind_ok] at h
        cases h
        simp [List.length_cons, ih tail hrest]

/-- C8: for every non-empty scenario list on which all per-scenario
comparisons succeed (yielding the list `ncs`), the report's average
reduction percentages are the arithmetic means over the scenarios, its
saved-energy/saved-carbon totals are the sums, and its single annual
projection is fed by the mean per-scenario saving (total divided by the
scenario count, not the sum), at 100 tests/day. -/
theorem report_aggregates (self : CarbonImpactCalculator)
    (test_scenarios : List Scenario) (now : String)
    (ncs : List NamedComparison)
    (hok : runComparisons self now test_scenarios = .ok ncs)
    (hne : test_scenarios ≠ []) :
    generate_carbon_report self test_scenarios now = .ok
      { report_metadata :=
          { generated_timestamp := now
            scenarios_analyzed := test_scenarios.length
            calculator_version := "1.0.0" }
        executive_summary :=
          { average_carbon_reduction_percent :=
              (ncs.map (fun c => c.comparison.comparison_summary.carbon_reduction_percent)).sum /
                (test_scenarios.length : ℚ)
            average_energy_reduction_percent :=
              (ncs.map (fun c => c.comparison.comparison_summary.energy_reduction_percent)).sum /
                (test_scenarios.length : ℚ)
            total_energy_saved_joules :=
              (ncs.map (fun c => c.comparison.comparison_summary.energy_saved_joules)).sum
            total_carbon_saved_g_co2e :=
              (ncs.map (fun c => c.comparison.comparison_summary.carbon_saved_g_co2e)).sum }
        detailed_scenarios := ncs
        annual_projections :=
          calculate_annual_projections self 100
            ⟨⟨(ncs.map (fun c => c.comparison.comparison_summary.energy_saved_joules)).sum /
                (test_scenarios.length : ℚ),
              (ncs.map (fun c => c.comparison.comparison_summary.carbon_saved_g_co2e)).sum /
                (test_scenarios.length : ℚ)⟩⟩
        methodology :=
          { grid_intensity_g_co2_kwh := self.GRID_INTENSITY
            cpu_base_watts := self.CPU_BASE_WATTS
            memory_watts_per_gb := self.MEMORY_WATTS_PER_GB
            cloud_pue_factor := self.CLOUD_PUE
            standards_compliance :=
              ["Software Carbon Intensity (SCI) Specification",
               "GHG Protocol Scope 2 Guidance",
               "Green Software Foundation Standards"] } } := by
  have hlen : ncs.length = test_scenarios.length :=
    runComparisons_length self now test_scenarios ncs hok
  have hn0 : (test_scenarios.length : ℚ) ≠ 0 := by
    refine Nat.cast_ne_zero.mpr ?_
    intro h
    exact hne (List.length_eq_zero.mp h)
  simp only [generate_carbon_report, hok, except_bind_ok, hlen]
  rw [pydiv_of_ne _ _ hn0, except_bind_ok, pydiv_of_ne _ _ hn0, except_bind_ok,
    pydiv_of_ne _ _ hn0, except_bind_ok, pydiv_of_ne _ _ hn0, except_bind_ok]
  rfl

/-- Concrete scenario used to instantiate the aggregation theorem. -/
def aggScenario : Scenario :=
  ⟨"s", ⟨0, 0, 0, 0, 0⟩, ⟨3600, 1, 1, 1, 1⟩⟩

/-- The named comparison `runComparisons` produces for `aggScenario`
under `onesCalculator` at clock reading "t". -/
def aggComparison : NamedComparison :=
  ⟨"s",
    ⟨"t",
      ⟨100, 100, 100, 14400, 1 / 250⟩,
      ⟨⟨0, 0, 0, ⟨0, 0, 0, 0, 0⟩⟩, ⟨0, 0, 1⟩, ⟨0, 0, 0, 0, 0⟩⟩,
      ⟨⟨4, 14400, 1 / 250, ⟨1, 1, 1, 1, 0⟩⟩, ⟨1 / 250, 1 / 250000, 1⟩,
        ⟨3600, 1, 1, 1, 1⟩⟩,
      ⟨100, 100⟩⟩⟩

/-- Witness for C8 on the one-element scenario list `[aggScenario]`. -/
theorem report_aggregates_witness :
    (runComparisons onesCalculator "t" [aggScenario] = .ok [aggComparison] ∧
      [aggScenario] ≠ ([] : List Scenario)) ∧
    generate_carbon_report onesCalculator [aggScenario] "t" = .ok
      { report_metadata :=
          { generated_timestamp := "t"
            scenarios_analyzed := [aggScenario].length
            calculator_version := "1.0.0" }
        executive_summary :=
          { average_carbon_reduction_percent :=
              ([aggComparison].map (fun c => c.comparison.comparison_summary.carbon_reduction_percent)).sum /
                ([aggScenario].length : ℚ)
            average_energy_reduction_percent :=
              ([aggComparison].map (fun c => c.comparison.comparison_summary.energy_reduction_percent)).sum /
                ([aggScenario].length : ℚ)
            total_energy_saved_joules :=
              ([aggComparison].map (fun c => c.comparison.comparison_summary.energy_saved_joules)).sum
            total_carbon_saved_g_co2e :=
              ([aggComparison].map (fun c => c.comparison.comparison_summary.carbon_saved_g_co2e)).sum }
        detailed_scenarios := [aggComparison]
        annual_projections :=
          calculate_annual_projections onesCalculator 100
            ⟨⟨([aggComparison].map (fun c => c.comparison.comparison_summary.energy_saved_joules)).sum /
                ([aggScenario].length : ℚ),
              ([aggComparison].map (fun c => c.comparison.comparison_summary.carbon_saved_g_co2e)).sum /
                ([aggScenario].length : ℚ)⟩⟩
        methodology :=
          { grid_intensity_g_co2_kwh := onesCalculator.GRID_INTENSITY
            cpu_base_watts := onesCalculator.CPU_BASE_WATTS
            memory_watts_per_gb := onesCalculator.MEMORY_WATTS_PER_GB
            cloud_pue_factor := onesCalculator.CLOUD_PUE
            standards_compliance :=
              ["Software Carbon Intensity (SCI) Specification",
               "GHG Protocol Scope 2 Guidance",
               "Green Software Foundation Standards"] } } :=
  ⟨⟨by norm_num [runComparisons, calculate_framework_comparison, baseOf,
      calculate_base_consumption, onesCalculator, pydiv, except_bind_ok,
      aggScenario, aggComparison], by simp⟩,
    report_aggregates onesCalculator [aggScenario] "t" [aggComparison]
      (by norm_num [runComparisons, calculate_framework_comparison, baseOf,
        calculate_base_consumption, onesCalculator, pydiv, except_bind_ok,
        aggScenario, aggComparison])
      (by simp)⟩
